import Mathlib

/-
Verification of EntityClassGenerator (src/entity_generator.py).

This file gives a shallow embedding of the generator logic:
the column data model (`ColumnInfo`), the attribute-toggle configuration
(`AttributeConfig`), the snake_case-to-PascalCase casing transform
(`to_pascal_case`, including Python's `str.title` semantics on ASCII
code points), the MySQL-to-C# type mapper (`get_csharp_type`), the class
renderer (`generate_class_lines`), the schema-row conversion
(`get_columns`) and the INI-configuration loading and validation
(`load_configuration`, `load_attribute_config`).
-/

/-- Embeds the `ColumnInfo` dataclass: one column of a table as produced
by `get_columns`.  Lengths/precisions are optional naturals (Python
`Optional[int]`, always non-negative here). -/
structure ColumnInfo where
  name : String
  data_type : String
  is_nullable : Bool
  is_primary_key : Bool
  is_auto_increment : Bool
  max_length : Option Nat
  numeric_precision : Option Nat
  numeric_scale : Option Nat

/-- Embeds the `AttributeConfig` dataclass: the six boolean toggles, each
defaulting to `true`. -/
structure AttributeConfig where
  use_key : Bool := true
  use_required : Bool := true
  use_column : Bool := true
  use_maxlength : Bool := true
  use_table : Bool := true
  use_database_generated : Bool := true

/-- The all-defaults toggle configuration (every attribute enabled). -/
def defaultAttributeConfig : AttributeConfig := {}

/-- The configuration with all six toggles disabled. -/
def allOffConfig : AttributeConfig :=
  { use_key := false, use_required := false, use_column := false,
    use_maxlength := false, use_table := false, use_database_generated := false }

/-
Casing transform.  Python strings are modelled as lists of code points
(`List Nat`); the embedding covers the ASCII range, which is the range
exercised by identifiers.  `titleAux` is Python's `str.title`:
a cased character is uppercased when the previous character is uncased
and lowercased otherwise; an uncased character passes through and resets
the word boundary.
-/

/-- ASCII lowercasing of one code point (`a`-`z` is 97-122). -/
def toLowerCode (n : Nat) : Nat :=
  if 65 ≤ n ∧ n ≤ 90 then n + 32 else n

/-- ASCII uppercasing of one code point (`A`-`Z` is 65-90). -/
def toUpperCode (n : Nat) : Nat :=
  if 97 ≤ n ∧ n ≤ 122 then n - 32 else n

/-- Whether a code point is a cased (ASCII letter) character. -/
def isCasedCode (n : Nat) : Bool :=
  decide ((65 ≤ n ∧ n ≤ 90) ∨ (97 ≤ n ∧ n ≤ 122))

/-- Python `str.title` on code points; the Bool is whether the previous
character was cased. -/
def titleAux : Bool → List Nat → List Nat
  | _, [] => []
  | prev, c :: cs =>
    if isCasedCode c then
      (if prev then toLowerCode c else toUpperCode c) :: titleAux true cs
    else
      c :: titleAux false cs

/-- Python `str.title`. -/
def titleCodes (l : List Nat) : List Nat := titleAux false l

/-- Python `str.split('_')` (code point 95 is the underscore); like
Python, empty segments are kept and `"".split('_') == ['']`. -/
def splitUnderscore : List Nat → List (List Nat)
  | [] => [[]]
  | c :: cs =>
    if c = 95 then [] :: splitUnderscore cs
    else
      match splitUnderscore cs with
      | [] => [[c]]
      | w :: ws => (c :: w) :: ws

/-- `to_pascal_case` on code points:
`''.join(word.title() for word in snake_str.split('_'))`. -/
def toPascalCodes (l : List Nat) : List Nat :=
  ((splitUnderscore l).map titleCodes).flatten

/-- A Lean `String` as the list of its code points. -/
def strCodes (s : String) : List Nat := s.data.map Char.toNat

/-- Rebuild a `String` from code points. -/
def codesStr (l : List Nat) : String := ⟨l.map Char.ofNat⟩

/-- Embeds `EntityGenerator.to_pascal_case` at the `String` level. -/
def to_pascal_case (s : String) : String :=
  codesStr (toPascalCodes (strCodes s))

/-
Type mapper.
-/

/-- Python `str.lower()` on ASCII, as a character-wise map (the same
function as `String.toLower`, stated on the character list so that it
evaluates by kernel reduction). -/
def strToLower (s : String) : String := ⟨s.data.map Char.toLower⟩

/-- Embeds the `type_mapping` dict of `get_csharp_type` (insertion
order preserved; lookup is by key, so order is irrelevant). -/
def type_mapping : List (String × String) :=
  [("bit", "bool"),
   ("tinyint", "byte"),
   ("smallint", "short"),
   ("int", "int"),
   ("bigint", "long"),
   ("decimal", "decimal"),
   ("float", "float"),
   ("double", "double"),
   ("datetime", "DateTime"),
   ("date", "DateTime"),
   ("timestamp", "DateTime"),
   ("time", "TimeSpan"),
   ("char", "string"),
   ("varchar", "string"),
   ("text", "string"),
   ("longtext", "string"),
   ("json", "string")]

/-- Embeds `EntityGenerator.get_csharp_type`: the `tinyint(1)`-as-boolean
special case first, then the static table with `object` fallback and the
nullable `?` decoration for non-`string` types. -/
def get_csharp_type (column : ColumnInfo) : String :=
  let base_type := strToLower column.data_type
  if base_type == "tinyint" && column.max_length == some 1 then
    (if !column.is_nullable then "bool" else "bool?")
  else
    let cs_type := (type_mapping.lookup base_type).getD "object"
    if column.is_nullable && cs_type != "string" then cs_type ++ "?" else cs_type

/-- The undecorated scalar type of a column, written from the words of
the specification: the `tinyint(1)` boolean special case, otherwise the
static table with the `object` fallback.  Used to compare the decoration
behaviour of `get_csharp_type` against the spec. -/
def mappedScalarType (column : ColumnInfo) : String :=
  if strToLower column.data_type == "tinyint" && column.max_length == some 1 then "bool"
  else (type_mapping.lookup (strToLower column.data_type)).getD "object"

/-
Entity renderer.  `generate_class` builds a list of lines and joins them
with newlines; the embedding keeps the line list (`generate_class_lines`)
and defines the final text as the join (`generate_class`).
-/

/-- The `using` block of `generate_class`: Python builds
`set(["using System;"])`, adds the DataAnnotations group when any of
key/required/maxlength is enabled and the Schema group when any of
column/table/database-generated is enabled, then emits `sorted(set)`.
The list below is that sorted order: lexicographically
`"using System.ComponentModel.DataAnnotations.Schema;" <
 "using System.ComponentModel.DataAnnotations;" < "using System;"`
because `.` (46) sorts before `;` (59). -/
def usingStatements (ac : AttributeConfig) : List String :=
  (if ac.use_column || ac.use_table || ac.use_database_generated then
    ["using System.ComponentModel.DataAnnotations.Schema;"] else []) ++
  (if ac.use_key || ac.use_required || ac.use_maxlength then
    ["using System.ComponentModel.DataAnnotations;"] else []) ++
  ["using System;"]

/-- `[Key]` line: emitted iff the column is a primary key and the toggle
is on. -/
def keyLines (ac : AttributeConfig) (column : ColumnInfo) : List String :=
  if column.is_primary_key && ac.use_key then ["        [Key]"] else []

/-- `[DatabaseGenerated(...)]` line: emitted iff the column is
auto-increment and the toggle is on. -/
def dbGeneratedLines (ac : AttributeConfig) (column : ColumnInfo) : List String :=
  if column.is_auto_increment && ac.use_database_generated then
    ["        [DatabaseGenerated(DatabaseGeneratedOption.Identity)]"] else []

/-- `[Column("...")]` line: emitted iff the toggle is on. -/
def columnAttrLines (ac : AttributeConfig) (column : ColumnInfo) : List String :=
  if ac.use_column then ["        [Column(\"" ++ column.name ++ "\")]"] else []

/-- `[Required]` line: the source condition is
`not column.is_nullable and column.data_type != "string" and use_required`
-- note that it compares the NATIVE `data_type`, not the mapped C# type. -/
def requiredLines (ac : AttributeConfig) (column : ColumnInfo) : List String :=
  if !column.is_nullable && column.data_type != "string" && ac.use_required then
    ["        [Required]"] else []

/-- `[MaxLength(n)]` line: the source condition is
`column.max_length and column.data_type in ['varchar', 'char'] and
use_maxlength`; Python truthiness makes both `None` and `0` fail the
first conjunct. -/
def maxLengthLines (ac : AttributeConfig) (column : ColumnInfo) : List String :=
  match column.max_length with
  | none => []
  | some n =>
    if decide (n ≠ 0) && (column.data_type == "varchar" || column.data_type == "char")
        && ac.use_maxlength then
      ["        [MaxLength(" ++ toString n ++ ")]"] else []

/-- The property declaration line
`        public {type} {Name} { get; set; }`. -/
def propertyLine (column : ColumnInfo) : String :=
  "        public " ++
    (get_csharp_type column ++ " " ++ to_pascal_case column.name ++ " \x7b get; set; \x7d")

/-- All lines `generate_class` emits for one column: the attribute lines
in the source's fixed order, then the property declaration and the
separating blank line. -/
def columnLines (ac : AttributeConfig) (column : ColumnInfo) : List String :=
  keyLines ac column ++
  (dbGeneratedLines ac column ++
  (columnAttrLines ac column ++
  (requiredLines ac column ++
  (maxLengthLines ac column ++
  [propertyLine column, ""]))))

/-- Embeds `EntityGenerator.generate_class` as its list of lines. -/
def generate_class_lines (ac : AttributeConfig) (namespc table_name : String)
    (columns : List ColumnInfo) : List String :=
  usingStatements ac ++
  ["", "namespace " ++ namespc, "\x7b"] ++
  (if ac.use_table then ["    [Table(\"" ++ table_name ++ "\")]"] else []) ++
  ["    public class " ++ to_pascal_case table_name, "    \x7b"] ++
  ((columns.map (columnLines ac)).flatten) ++
  ["    \x7d", "\x7d"]

/-- Embeds `EntityGenerator.generate_class`: the joined class text. -/
def generate_class (ac : AttributeConfig) (namespc table_name : String)
    (columns : List ColumnInfo) : String :=
  String.intercalate "\n" (generate_class_lines ac namespc table_name columns)

/-- The fixed master line sequence for one column, written from the
spec's stated order (key, database-generated, column binding, required,
max-length, property declaration): every toggle assignment must emit a
subsequence of this list. -/
def masterLines (column : ColumnInfo) : List String :=
  "        [Key]" ::
  "        [DatabaseGenerated(DatabaseGeneratedOption.Identity)]" ::
  ("        [Column(\"" ++ column.name ++ "\")]") ::
  "        [Required]" ::
  ((match column.max_length with
    | none => []
    | some n => ["        [MaxLength(" ++ toString n ++ ")]"]) ++
   [propertyLine column, ""])

/-
Schema reader row conversion.  `get_columns` issues a query ordered by
ORDINAL_POSITION (the database returns the rows in that order); the
Python loop then appends one `ColumnInfo` per fetched row, in order.
The embedding takes the fetched row list as input.
-/

/-- One row of the INFORMATION_SCHEMA.COLUMNS query, in the source's
column order. -/
structure SchemaRow where
  column_name : String
  data_type : String
  is_nullable : String
  column_key : String
  extra : String
  character_maximum_length : Option Nat
  numeric_precision : Option Nat
  numeric_scale : Option Nat
  column_type : String

/-- Python `pat in hay` on character lists: some position of `hay`
starts with `pat`. -/
def strContains : List Char → List Char → Bool
  | [], pat => List.take pat.length [] == pat
  | c :: t, pat => ((c :: t).take pat.length == pat) || strContains t pat

/-- Numeric value of a digit run (`int(...)` on the matched group). -/
def digitsVal (ds : List Char) : Nat :=
  ds.foldl (fun a c => a * 10 + (c.toNat - 48)) 0

/-- Match of the regex `tinyint\((\d+)\)` anchored at the current
position: the literal `tinyint(`, then a maximal nonempty digit run,
then `)`. -/
def matchTinyintWidthAt (l : List Char) : Option Nat :=
  if l.take 8 == "tinyint(".data then
    let rest := l.drop 8
    let ds := rest.takeWhile (fun c => c.isDigit)
    if decide (0 < ds.length) && ((rest.drop ds.length).take 1 == [')']) then
      some (digitsVal ds)
    else none
  else none

/-- `re.search(r'tinyint\((\d+)\)', column_type)`: the first position
where the pattern matches, if any. -/
def searchTinyintWidth : List Char → Option Nat
  | [] => none
  | c :: t =>
    match matchTinyintWidthAt (c :: t) with
    | some n => some n
    | none => searchTinyintWidth t

/-- The per-row body of `get_columns`: lowercase COLUMN_TYPE; when it
contains `tinyint`, `max_length` is the display width parsed from
`tinyint(n)` (None when the suffix is absent), otherwise
CHARACTER_MAXIMUM_LENGTH; then build the `ColumnInfo` with the flag
comparisons of the source. -/
def rowToColumnInfo (row : SchemaRow) : ColumnInfo :=
  let column_type := row.column_type.data.map Char.toLower
  let max_length : Option Nat :=
    if strContains column_type ("tinyint".data) then searchTinyintWidth column_type
    else row.character_maximum_length
  { name := row.column_name
    data_type := row.data_type
    is_nullable := row.is_nullable == "YES"
    is_primary_key := row.column_key == "PRI"
    is_auto_increment := strContains row.extra.data ("auto_increment".data)
    max_length := max_length
    numeric_precision := row.numeric_precision
    numeric_scale := row.numeric_scale }

/-- Embeds `EntityGenerator.get_columns` on the fetched row list: one
`ColumnInfo` appended per row, preserving the fetch order. -/
def get_columns (rows : List SchemaRow) : List ColumnInfo :=
  rows.map rowToColumnInfo

/-
Configuration loading.  An INI file is modelled as its parsed section
structure: an association list of section names to association lists of
keys and raw string values.
-/

/-- First-match association lookup (configparser section and key
access). -/
def alookup {α : Type} : List (String × α) → String → Option α
  | [], _ => none
  | (k, v) :: t, key => if k == key then some v else alookup t key

/-- A parsed configuration file. -/
structure RawConfig where
  sections : List (String × List (String × String))

/-- configparser boolean value parsing (`BOOLEAN_STATES`): `1`, `yes`,
`true`, `on` are true; `0`, `no`, `false`, `off` are false; anything
else raises ValueError. -/
def parseBoolean (v : String) : Except String Bool :=
  if strToLower v == "1" || strToLower v == "yes" || strToLower v == "true"
      || strToLower v == "on" then Except.ok true
  else if strToLower v == "0" || strToLower v == "no" || strToLower v == "false"
      || strToLower v == "off" then Except.ok false
  else Except.error ("Not a boolean: " ++ v)

/-- `section.getboolean(key, fallback)`: the fallback when the key is
absent, otherwise the parsed value. -/
def getbooleanOr (sec : List (String × String)) (key : String) (fallback : Bool) :
    Except String Bool :=
  match alookup sec key with
  | none => Except.ok fallback
  | some v => parseBoolean v

/-- Embeds `EntityGenerator._load_attribute_config`.  The source sets
`attr_config = self.config['Attributes'] if 'Attributes' in self.config
else {}`; when the section is absent the fallback is a plain dict, which
has no `getboolean` method, so the first toggle access raises
AttributeError -- modelled as the error case. -/
def load_attribute_config (cfg : RawConfig) : Except String AttributeConfig :=
  match alookup cfg.sections "Attributes" with
  | none => Except.error "AttributeError: dict object has no attribute getboolean"
  | some attr_config => do
    let use_key ← getbooleanOr attr_config "use_key_attribute" true
    let use_required ← getbooleanOr attr_config "use_required_attribute" true
    let use_column ← getbooleanOr attr_config "use_column_attribute" true
    let use_maxlength ← getbooleanOr attr_config "use_maxlength_attribute" true
    let use_table ← getbooleanOr attr_config "use_table_attribute" true
    let use_database_generated ←
      getbooleanOr attr_config "use_databasegenerated_attribute" true
    Except.ok
      { use_key := use_key, use_required := use_required, use_column := use_column,
        use_maxlength := use_maxlength, use_table := use_table,
        use_database_generated := use_database_generated }

/-- The required Database-section parameters, in the source's check
order. -/
def requiredDbParams : List String := ["host", "database", "user", "password"]

/-- The required Generator-section parameters, in the source's check
order. -/
def requiredGenParams : List String := ["output_directory", "namespace"]

/-- The first parameter of the list missing from the section, if any
(the source raises on the first missing one). -/
def firstMissing (sec : List (String × String)) : List String → Option String
  | [] => none
  | k :: ks => if (alookup sec k).isNone then some k else firstMissing sec ks

/-- Embeds `EntityGenerator._load_configuration`: missing file, then the
required sections `Database` and `Generator`, then the four connection
parameters, then the two generator parameters; each failure raises
ConfigurationError (modelled as `Except.error`). -/
def load_configuration (fileExists : Bool) (cfg : RawConfig) : Except String RawConfig :=
  if fileExists = false then
    Except.error "Configuration file not found"
  else
    match alookup cfg.sections "Database" with
    | none => Except.error "Missing required section: Database"
    | some db =>
      match alookup cfg.sections "Generator" with
      | none => Except.error "Missing required section: Generator"
      | some gen =>
        match firstMissing db requiredDbParams with
        | some p => Except.error ("Missing required database parameter: " ++ p)
        | none =>
          match firstMissing gen requiredGenParams with
          | some p => Except.error ("Missing required generator parameter: " ++ p)
          | none => Except.ok cfg

/-- Whether an `Except` result is a success. -/
def exceptOk {ε α : Type} : Except ε α → Bool
  | Except.ok _ => true
  | Except.error _ => false

/-- Connection attempts of a run of `main`: `EntityGenerator.__init__`
raises the ConfigurationError from `_load_configuration` before
`generate_entities` runs, and a successful construction attempts exactly
one `get_connection` inside `generate_entities`. -/
def connectionAttempts (fileExists : Bool) (cfg : RawConfig) : Nat :=
  match load_configuration fileExists cfg with
  | Except.error _ => 0
  | Except.ok _ => 1

/-- Whether a section lacks a key (the section itself being absent
counts as lacking it). -/
def missingKey (cfg : RawConfig) (sectionName key : String) : Bool :=
  match alookup cfg.sections sectionName with
  | none => true
  | some sec => (alookup sec key).isNone

/-
Orchestrator surface needed for the claims: the per-table output file
name and rendered content, and a configuration update that changes only
the `Generator.language` value.
-/

/-- Replace the value of a key in a section, or append the pair when the
key is absent. -/
def setKey : List (String × String) → String → String → List (String × String)
  | [], key, v => [(key, v)]
  | (k, w) :: t, key, v =>
    if k == key then (key, v) :: t else (k, w) :: setKey t key v

/-- Set `Generator.language` to `v`, leaving every other section and key
unchanged. -/
def setGeneratorLanguage (cfg : RawConfig) (v : String) : RawConfig :=
  ⟨cfg.sections.map (fun s =>
    if s.fst == "Generator" then (s.fst, setKey s.snd "language" v) else s)⟩

/-- `self.config['Generator']['namespace']` (validation guarantees the
key; the defaults only make the function total). -/
def namespaceOf (cfg : RawConfig) : String :=
  match alookup cfg.sections "Generator" with
  | none => ""
  | some gen => (alookup gen "namespace").getD ""

/-- The output file name of a table:
`f"{self.to_pascal_case(table)}.cs"`. -/
def outputFileName (table_name : String) : String :=
  to_pascal_case table_name ++ ".cs"

/-- The per-table output of `generate_entities`: the file name and the
rendered class text, computed from the configuration (attribute toggles
and namespace). -/
def renderEntityFile (cfg : RawConfig) (table_name : String)
    (columns : List ColumnInfo) : Except String (String × String) :=
  match load_attribute_config cfg with
  | Except.error e => Except.error e
  | Except.ok ac =>
    Except.ok (outputFileName table_name,
      generate_class ac (namespaceOf cfg) table_name columns)

/-
Character-level lemmas for the casing transform.
-/

/-- ASCII lowercasing is idempotent. -/
theorem toLowerCode_toLowerCode (n : Nat) : toLowerCode (toLowerCode n) = toLowerCode n := by
  unfold toLowerCode
  split_ifs <;> omega

/-- ASCII uppercasing is idempotent. -/
theorem toUpperCode_toUpperCode (n : Nat) : toUpperCode (toUpperCode n) = toUpperCode n := by
  unfold toUpperCode
  split_ifs <;> omega

/-- Lowercasing preserves casedness. -/
theorem isCased_toLowerCode (n : Nat) (h : isCasedCode n = true) :
    isCasedCode (toLowerCode n) = true := by
  unfold isCasedCode at h ⊢
  unfold toLowerCode
  rw [decide_eq_true_iff] at h ⊢
  split_ifs <;> omega

/-- Uppercasing preserves casedness. -/
theorem isCased_toUpperCode (n : Nat) (h : isCasedCode n = true) :
    isCasedCode (toUpperCode n) = true := by
  unfold isCasedCode at h ⊢
  unfold toUpperCode
  rw [decide_eq_true_iff] at h ⊢
  split_ifs <;> omega

/-- Lowercasing never produces the underscore (code 95). -/
theorem toLowerCode_ne95 (n : Nat) (h : n ≠ 95) : toLowerCode n ≠ 95 := by
  unfold toLowerCode
  split_ifs <;> omega

/-- Uppercasing never produces the underscore (code 95). -/
theorem toUpperCode_ne95 (n : Nat) (h : n ≠ 95) : toUpperCode n ≠ 95 := by
  unfold toUpperCode
  split_ifs <;> omega

/-- Python `str.title` is idempotent (uniformly in the carried word
state). -/
theorem titleAux_titleAux (l : List Nat) : ∀ p, titleAux p (titleAux p l) = titleAux p l := by
  induction l with
  | nil => intro p; rfl
  | cons c cs ih =>
    intro p
    cases hc : isCasedCode c
    · simp [titleAux, hc, ih false]
    · cases p
      · have h1 : isCasedCode (toUpperCode c) = true := isCased_toUpperCode c hc
        simp [titleAux, hc, h1, toUpperCode_toUpperCode, ih true]
      · have h1 : isCasedCode (toLowerCode c) = true := isCased_toLowerCode c hc
        simp [titleAux, hc, h1, toLowerCode_toLowerCode, ih true]

/-- `str.title` keeps a string underscore-free. -/
theorem titleAux_ne95 (l : List Nat) : ∀ p, 95 ∉ l → 95 ∉ titleAux p l := by
  induction l with
  | nil => intro p _; simp [titleAux]
  | cons c cs ih =>
    intro p h
    have hc95 : c ≠ 95 := fun e => h (by simp [e])
    have hcs : 95 ∉ cs := fun m => h (List.mem_cons_of_mem _ m)
    cases hc : isCasedCode c
    · simp only [titleAux, hc, Bool.false_eq_true, if_false, List.mem_cons, not_or]
      exact ⟨fun e => hc95 e.symm, ih false hcs⟩
    · cases p
      · simp only [titleAux, hc, if_true, Bool.false_eq_true, if_false, List.mem_cons, not_or]
        exact ⟨fun e => toUpperCode_ne95 c hc95 e.symm, ih true hcs⟩
      · simp only [titleAux, hc, if_true, List.mem_cons, not_or]
        exact ⟨fun e => toLowerCode_ne95 c hc95 e.symm, ih true hcs⟩

/-- Splitting an underscore-free string on underscores returns the
string as the single segment. -/
theorem splitUnderscore_no95 (l : List Nat) (h : 95 ∉ l) : splitUnderscore l = [l] := by
  induction l with
  | nil => rfl
  | cons c cs ih =>
    have hc : ¬ c = 95 := fun e => h (by simp [e])
    have hcs : 95 ∉ cs := fun m => h (List.mem_cons_of_mem _ m)
    simp only [splitUnderscore, hc, if_false]
    rw [ih hcs]

/-- On underscore-free input the pascal-case transform is exactly
`str.title`. -/
theorem toPascalCodes_of_no95 (l : List Nat) (h : 95 ∉ l) :
    toPascalCodes l = titleCodes l := by
  unfold toPascalCodes
  rw [splitUnderscore_no95 l h]
  simp

/-
C1 -- the boolean special case of the type mapper.
-/

/-- A non-`tinyint` integer column with display width 1: the mapper
falls through to the static table. -/
def smallint1Column : ColumnInfo :=
  { name := "flags", data_type := "smallint", is_nullable := false,
    is_primary_key := false, is_auto_increment := false,
    max_length := some 1, numeric_precision := some 5, numeric_scale := some 0 }

/-- C1 counterexample: a `smallint` column with display width exactly 1
is mapped by the static table to `short`, not to the boolean type, so
the boolean rule is not independent of the integer type name. -/
theorem c1_integer_width1_not_boolean :
    get_csharp_type smallint1Column = "short" ∧ get_csharp_type smallint1Column ≠ "bool" := by
  decide

/-- C1 (amended): only for the native type `tinyint` (case-insensitively)
with display width exactly 1 does the mapper return the boolean type --
`bool`, or `bool?` when nullable -- and this takes precedence over the
static table (which would give `byte` for `tinyint`). -/
theorem c1_tinyint1_boolean (column : ColumnInfo)
    (h1 : strToLower column.data_type = "tinyint") (h2 : column.max_length = some 1) :
    get_csharp_type column = (if column.is_nullable then "bool?" else "bool") := by
  cases hn : column.is_nullable <;>
    simp [get_csharp_type, h1, h2, hn]

/-- The `tinyint(1)` column of the spec's end-to-end scenario. -/
def isPaidColumn : ColumnInfo :=
  { name := "is_paid", data_type := "tinyint", is_nullable := false,
    is_primary_key := false, is_auto_increment := false,
    max_length := some 1, numeric_precision := some 3, numeric_scale := some 0 }

/-- Witness for `c1_tinyint1_boolean` at the `is_paid tinyint(1)`
column. -/
theorem c1_tinyint1_boolean_witness :
    strToLower isPaidColumn.data_type = "tinyint" ∧ isPaidColumn.max_length = some 1 ∧
      get_csharp_type isPaidColumn = (if isPaidColumn.is_nullable then "bool?" else "bool") :=
  ⟨by decide, by decide, c1_tinyint1_boolean isPaidColumn (by decide) (by decide)⟩

/-
C5 -- idempotence of the casing transform.
-/

/-- C5 counterexample: on the PascalCase output `UserId` of the
transform, a second application lowercases the interior capital
(`UserId` becomes `Userid`), so `transform(transform(s)) = transform(s)`
fails at `s = "user_id"`. -/
theorem c5_not_idempotent :
    to_pascal_case (to_pascal_case "user_id") ≠ to_pascal_case "user_id" := by
  decide

/-- C5 (amended): the casing transform is idempotent exactly on
underscore-free inputs (in particular on any single-segment PascalCase
identifier); for multi-segment names the second application lowercases
interior capitals. -/
theorem c5_idempotent_no_underscore (l : List Nat) (h : 95 ∉ l) :
    toPascalCodes (toPascalCodes l) = toPascalCodes l := by
  rw [toPascalCodes_of_no95 l h]
  have h2 : 95 ∉ titleCodes l := titleAux_ne95 l false h
  rw [toPascalCodes_of_no95 _ h2]
  exact titleAux_titleAux l false

/-- Witness for `c5_idempotent_no_underscore` at the underscore-free
identifier `UserId`. -/
theorem c5_idempotent_no_underscore_witness :
    95 ∉ strCodes "UserId" ∧
      toPascalCodes (toPascalCodes (strCodes "UserId")) = toPascalCodes (strCodes "UserId") :=
  ⟨by decide, c5_idempotent_no_underscore (strCodes "UserId") (by decide)⟩

/-
C3 -- nullable decoration of the type mapper.
-/

/-- C3: the mapper returns exactly the undecorated scalar type with `?`
appended when the column is nullable and the scalar type is not
`string`, and the bare scalar type otherwise; in particular
string-mapped columns are never decorated. -/
theorem c3_nullable_decoration (column : ColumnInfo) :
    get_csharp_type column =
      if column.is_nullable && mappedScalarType column != "string"
      then mappedScalarType column ++ "?" else mappedScalarType column := by
  unfold get_csharp_type mappedScalarType
  cases h : (strToLower column.data_type == "tinyint" && column.max_length == some 1)
  · simp [h]
  · simp only [h, if_true]
    cases hn : column.is_nullable <;> simp [hn]

/-
C2 -- the required-attribute condition.
-/

/-- A non-nullable `varchar` column (`note varchar(255) NOT NULL`). -/
def noteColumn : ColumnInfo :=
  { name := "note", data_type := "varchar", is_nullable := false,
    is_primary_key := false, is_auto_increment := false,
    max_length := some 255, numeric_precision := none, numeric_scale := none }

/-- C2 failing input: `note varchar(255) NOT NULL` maps to the C# type
`string`, yet with the required toggle on (defaults) the code emits
`[Required]`, because the source compares the NATIVE type name
(`varchar`) -- never literally `"string"` -- instead of the mapped
type. -/
theorem c2_required_emitted_for_varchar :
    get_csharp_type noteColumn = "string" ∧
      "        [Required]" ∈ columnLines defaultAttributeConfig noteColumn := by
  decide

/-
C7 -- fixed attribute emission order.
-/

/-- An optionally present line extends a subsequence relation by one
master slot. -/
theorem optLine_sublist {α : Type} (b : Bool) (x : α) {l m : List α}
    (h : List.Sublist l m) : List.Sublist ((if b then [x] else []) ++ l) (x :: m) := by
  cases b
  · simpa using h.cons x
  · simpa using h.cons₂ x

/-- C7: for every toggle assignment the lines emitted for a column are a
subsequence of the fixed master sequence (key, database-generated,
column binding, required, max-length, property declaration, blank), so
toggles only add or remove lines and never reorder them. -/
theorem c7_fixed_order (ac : AttributeConfig) (column : ColumnInfo) :
    List.Sublist (columnLines ac column) (masterLines column) := by
  unfold columnLines masterLines keyLines dbGeneratedLines columnAttrLines requiredLines
  refine optLine_sublist _ _ (optLine_sublist _ _ (optLine_sublist _ _ (optLine_sublist _ _ ?_)))
  unfold maxLengthLines
  cases column.max_length
  · simp
  · exact optLine_sublist _ _ (List.Sublist.refl _)

/-
Property-line recognition: the property declarations are exactly the
lines of the rendered class that start with eight spaces and `public`
(every attribute line starts with eight spaces and `[`, the class line
with four spaces, and the remaining lines with other characters).
-/

/-- Recognizes a property declaration line by its first ten characters
(eight spaces then `pu`). -/
def isPropLine (s : String) : Bool := s.data.take 10 == "        pu".data

/-- `isPropLine` of a concatenation is decided by the left part when it
has at least ten characters. -/
theorem isPropLine_concat (lit rest : String) (h : 10 ≤ lit.data.length) :
    isPropLine (lit ++ rest) = (lit.data.take 10 == "        pu".data) := by
  unfold isPropLine
  rw [String.data_append, List.take_append_of_le_length h]

/-- The key-attribute lines contain no property line. -/
theorem filter_keyLines (ac : AttributeConfig) (column : ColumnInfo) :
    (keyLines ac column).filter isPropLine = [] := by
  unfold keyLines
  split <;> decide

/-- The database-generated lines contain no property line. -/
theorem filter_dbGeneratedLines (ac : AttributeConfig) (column : ColumnInfo) :
    (dbGeneratedLines ac column).filter isPropLine = [] := by
  unfold dbGeneratedLines
  split <;> decide

/-- The column-binding lines contain no property line. -/
theorem filter_columnAttrLines (ac : AttributeConfig) (column : ColumnInfo) :
    (columnAttrLines ac column).filter isPropLine = [] := by
  unfold columnAttrLines
  split
  · have h : isPropLine ("        [Column(\"" ++ column.name ++ "\")]") = false := by
      rw [String.append_assoc, isPropLine_concat _ _ (by decide)]
      decide
    simp [h]
  · rfl

/-- The required lines contain no property line. -/
theorem filter_requiredLines (ac : AttributeConfig) (column : ColumnInfo) :
    (requiredLines ac column).filter isPropLine = [] := by
  unfold requiredLines
  split <;> decide

/-- The max-length lines contain no property line. -/
theorem filter_maxLengthLines (ac : AttributeConfig) (column : ColumnInfo) :
    (maxLengthLines ac column).filter isPropLine = [] := by
  cases h : column.max_length with
  | none => simp [maxLengthLines, h]
  | some n =>
    simp only [maxLengthLines, h]
    split
    · have h2 : isPropLine ("        [MaxLength(" ++ toString n ++ ")]") = false := by
        rw [String.append_assoc, isPropLine_concat _ _ (by decide)]
        decide
      simp [h2]
    · rfl

/-- Every property declaration line is recognized. -/
theorem isPropLine_propertyLine (column : ColumnInfo) :
    isPropLine (propertyLine column) = true := by
  unfold propertyLine
  rw [isPropLine_concat _ _ (by decide)]
  decide

/-- The lines of one column filter down to exactly its property
declaration. -/
theorem filter_columnLines (ac : AttributeConfig) (column : ColumnInfo) :
    (columnLines ac column).filter isPropLine = [propertyLine column] := by
  unfold columnLines
  simp only [List.filter_append, filter_keyLines, filter_dbGeneratedLines,
    filter_columnAttrLines, filter_requiredLines, filter_maxLengthLines,
    List.nil_append]
  simp [List.filter, isPropLine_propertyLine column, show isPropLine "" = false from rfl]

/-- The using block contains no property line. -/
theorem filter_usingStatements (ac : AttributeConfig) :
    (usingStatements ac).filter isPropLine = [] := by
  unfold usingStatements
  simp only [List.filter_append]
  split <;> split <;> decide

/-- The namespace line is no property line. -/
theorem isPropLine_namespaceLine (ns : String) : isPropLine ("namespace " ++ ns) = false := by
  rw [isPropLine_concat _ _ (by decide)]
  decide

/-- The class declaration line is no property line. -/
theorem isPropLine_classLine (s : String) :
    isPropLine ("    public class " ++ s) = false := by
  rw [isPropLine_concat _ _ (by decide)]
  decide

/-- The optional table attribute contains no property line. -/
theorem filter_tableAttr (ac : AttributeConfig) (table_name : String) :
    ((if ac.use_table then ["    [Table(\"" ++ table_name ++ "\")]"] else []).filter
      isPropLine) = [] := by
  split
  · have h : isPropLine ("    [Table(\"" ++ table_name ++ "\")]") = false := by
      rw [String.append_assoc, isPropLine_concat _ _ (by decide)]
      decide
    simp [h]
  · rfl

/-- The concatenated per-column blocks filter down to the property
declarations, one per column, in order. -/
theorem filter_flatten_columnLines (ac : AttributeConfig) (columns : List ColumnInfo) :
    ((columns.map (columnLines ac)).flatten).filter isPropLine =
      columns.map propertyLine := by
  induction columns with
  | nil => rfl
  | cons c cs ih =>
    simp only [List.map_cons, List.flatten_cons, List.filter_append,
      filter_columnLines, ih, List.cons_append, List.nil_append]

/-- The property declarations of a rendered class are exactly the
per-column property lines, in column order. -/
theorem filter_generate_class_lines (ac : AttributeConfig) (namespc table_name : String)
    (columns : List ColumnInfo) :
    (generate_class_lines ac namespc table_name columns).filter isPropLine =
      columns.map propertyLine := by
  unfold generate_class_lines
  simp only [List.filter_append, filter_usingStatements, filter_tableAttr,
    filter_flatten_columnLines]
  simp [List.filter, isPropLine_namespaceLine, isPropLine_classLine,
    show isPropLine "" = false from rfl, show isPropLine "\x7b" = false from rfl,
    show isPropLine "    \x7b" = false from rfl, show isPropLine "    \x7d" = false from rfl,
    show isPropLine "\x7d" = false from rfl]

/-
C8 -- column order preservation.
-/

/-- C8: for every fetched row list (the query orders rows by
ORDINAL_POSITION), the property declarations of the rendered class are
exactly the per-column property lines in the same order -- one per row,
none dropped, none duplicated, none reordered. -/
theorem c8_property_order (ac : AttributeConfig) (namespc table_name : String)
    (rows : List SchemaRow) :
    (generate_class_lines ac namespc table_name (get_columns rows)).filter isPropLine =
      (get_columns rows).map propertyLine ∧
    (get_columns rows).length = rows.length :=
  ⟨filter_generate_class_lines ac namespc table_name (get_columns rows),
   by simp [get_columns]⟩

/-
C6 -- rendering with all toggles disabled.
-/

/-- The per-column block with all toggles off is the bare property
declaration and its separating blank line. -/
theorem columnLines_allOff (column : ColumnInfo) :
    columnLines allOffConfig column = [propertyLine column, ""] := by
  unfold columnLines keyLines dbGeneratedLines columnAttrLines requiredLines maxLengthLines
  cases column.max_length <;> simp [allOffConfig]

/-- C6 counterexample: even with all six toggles disabled the rendered
class contains the base `using System;` declaration, so the set of
using declarations is not empty. -/
theorem c6_using_system_always_present :
    "using System;" ∈ generate_class_lines allOffConfig "TestNamespace" "orders" [] := by
  decide

/-- C6 (amended): with all six toggles disabled the rendered class is
exactly the single base `using System;` declaration, the namespace and
class wrappers, and the plain property declarations -- no attribute
lines anywhere, no table attribute -- and the property declarations (and
hence the property types) are identical to those rendered under any
other toggle assignment. -/
theorem c6_all_toggles_off (namespc table_name : String) (columns : List ColumnInfo) :
    generate_class_lines allOffConfig namespc table_name columns =
      ["using System;", "", "namespace " ++ namespc, "\x7b",
       "    public class " ++ to_pascal_case table_name, "    \x7b"] ++
      (columns.map (fun c => [propertyLine c, ""])).flatten ++
      ["    \x7d", "\x7d"] ∧
    ∀ ac : AttributeConfig,
      (generate_class_lines ac namespc table_name columns).filter isPropLine =
        (generate_class_lines allOffConfig namespc table_name columns).filter isPropLine := by
  constructor
  · unfold generate_class_lines usingStatements
    rw [show columnLines allOffConfig = fun c => [propertyLine c, ""] from
      funext columnLines_allOff]
    simp [allOffConfig]
  · intro ac
    rw [filter_generate_class_lines, filter_generate_class_lines]

/-
C4 -- attribute-config loading defaults.
-/

/-- A complete Database section. -/
def dbSectionOk : List (String × String) :=
  [("host", "localhost"), ("database", "shop"), ("user", "root"), ("password", "secret")]

/-- A complete Generator section. -/
def genSectionOk : List (String × String) :=
  [("output_directory", "./GeneratedEntities"), ("namespace", "Shop.Entities")]

/-- A valid configuration whose `Attributes` section is absent. -/
def cfgNoAttributesSection : RawConfig :=
  ⟨[("Database", dbSectionOk), ("Generator", genSectionOk)]⟩

/-- A valid configuration whose `Attributes` section is present but
empty (every toggle key absent). -/
def cfgEmptyAttributesSection : RawConfig :=
  ⟨[("Database", dbSectionOk), ("Generator", genSectionOk), ("Attributes", [])]⟩

/-- C4 failing input: when the whole `Attributes` section is absent the
source falls back to a plain dict, whose missing `getboolean` raises
AttributeError instead of defaulting the six toggles to true; only when
the section is present do absent keys default to enabled. -/
theorem c4_absent_section_raises :
    exceptOk (load_attribute_config cfgNoAttributesSection) = false ∧
      load_attribute_config cfgEmptyAttributesSection = Except.ok defaultAttributeConfig :=
  ⟨rfl, rfl⟩

/-
C9 -- missing required configuration keys.
-/

/-- If a key of the checked list is absent from the section, the
source's sequential check reports some missing parameter. -/
theorem firstMissing_of_missing (sec : List (String × String)) (k : String) :
    ∀ ks : List String, k ∈ ks → alookup sec k = none →
      (firstMissing sec ks).isSome = true := by
  intro ks
  induction ks with
  | nil => intro h; cases h
  | cons k2 t ih =>
    intro hmem hnone
    unfold firstMissing
    by_cases h2 : (alookup sec k2).isNone = true
    · rw [if_pos h2]
      rfl
    · rw [if_neg h2]
      rcases List.mem_cons.mp hmem with he | hm
      · subst he
        rw [hnone] at h2
        exact absurd rfl h2
      · exact ih hm hnone

/-- C9: a configuration file that exists but lacks any of the four
Database parameters or the two Generator parameters makes
`_load_configuration` raise a ConfigurationError, and the run attempts
no database connection (`__init__` raises before `generate_entities`
reaches `get_connection`). -/
theorem c9_missing_required_key (cfg : RawConfig) (key : String)
    (h : (key ∈ requiredDbParams ∧ missingKey cfg "Database" key = true) ∨
         (key ∈ requiredGenParams ∧ missingKey cfg "Generator" key = true)) :
    exceptOk (load_configuration true cfg) = false ∧
      connectionAttempts true cfg = 0 := by
  have herr : exceptOk (load_configuration true cfg) = false := by
    unfold load_configuration
    rw [if_neg (by simp)]
    split
    · rfl
    · split
      · rfl
      · split
        · rfl
        · split
          · rfl
          · exfalso
            rename_i xa dbv hdb xb genv hgen xc hfm xd hfg
            rcases h with ⟨hmem, hmiss⟩ | ⟨hmem, hmiss⟩
            · unfold missingKey at hmiss
              rw [hdb] at hmiss
              have hs := firstMissing_of_missing dbv key requiredDbParams hmem
                (Option.isNone_iff_eq_none.mp hmiss)
              rw [hfm] at hs
              simp at hs
            · unfold missingKey at hmiss
              rw [hgen] at hmiss
              have hs := firstMissing_of_missing genv key requiredGenParams hmem
                (Option.isNone_iff_eq_none.mp hmiss)
              rw [hfg] at hs
              simp at hs
  refine ⟨herr, ?_⟩
  unfold connectionAttempts
  cases hl : load_configuration true cfg with
  | error e => rfl
  | ok c =>
    rw [hl] at herr
    exact absurd herr (by simp [exceptOk])

/-- An otherwise valid configuration whose `Database` section lacks the
`password` key. -/
def cfgMissingPassword : RawConfig :=
  ⟨[("Database", [("host", "localhost"), ("database", "shop"), ("user", "root")]),
    ("Generator", genSectionOk)]⟩

/-- Witness for `c9_missing_required_key` at a configuration missing
`Database.password`. -/
theorem c9_missing_required_key_witness :
    exceptOk (load_configuration true cfgMissingPassword) = false ∧
      connectionAttempts true cfgMissingPassword = 0 :=
  c9_missing_required_key cfgMissingPassword "password" (Or.inl ⟨by decide, by decide⟩)

/-
C10 -- the language setting has no effect.
-/

/-- Setting `Generator.language` leaves the lookup of every other
section unchanged. -/
theorem alookup_setLang_other (l : List (String × List (String × String)))
    (v name : String) (h : name ≠ "Generator") :
    alookup (l.map (fun s =>
      if s.fst == "Generator" then (s.fst, setKey s.snd "language" v) else s)) name =
      alookup l name := by
  induction l with
  | nil => rfl
  | cons p t ih =>
    obtain ⟨k, sec⟩ := p
    cases hkg : (k == "Generator")
    · simp only [List.map_cons, hkg, Bool.false_eq_true, if_false]
      unfold alookup
      cases hkn : (k == name)
      · simp only [hkn, Bool.false_eq_true, if_false]
        exact ih
      · simp only [hkn, if_true]
    · have hke : k = "Generator" := by simpa using hkg
      subst hke
      have hkn : ("Generator" == name) = false := by
        simp only [beq_eq_false_iff_ne]
        exact fun e => h e.symm
      simp only [List.map_cons, hkg, if_true]
      unfold alookup
      simp only [hkn, Bool.false_eq_true, if_false]
      exact ih

/-- Setting `Generator.language` rewrites exactly the Generator
section. -/
theorem alookup_setLang_gen (l : List (String × List (String × String))) (v : String) :
    alookup (l.map (fun s =>
      if s.fst == "Generator" then (s.fst, setKey s.snd "language" v) else s)) "Generator" =
      Option.map (fun sec => setKey sec "language" v) (alookup l "Generator") := by
  induction l with
  | nil => rfl
  | cons p t ih =>
    obtain ⟨k, sec⟩ := p
    cases hkg : (k == "Generator")
    · simp only [List.map_cons, hkg, Bool.false_eq_true, if_false]
      unfold alookup
      simp only [hkg, Bool.false_eq_true, if_false]
      exact ih
    · have hke : k = "Generator" := by simpa using hkg
      subst hke
      simp only [List.map_cons, hkg, if_true]
      unfold alookup
      simp only [hkg, if_true]
      rfl

/-- Setting one key leaves the lookup of a different key unchanged. -/
theorem alookup_setKey_other (sec : List (String × String)) (k2 v key : String)
    (h : key ≠ k2) : alookup (setKey sec k2 v) key = alookup sec key := by
  induction sec with
  | nil =>
    unfold setKey alookup
    simp [beq_eq_false_iff_ne.mpr (Ne.symm h), alookup]
  | cons p t ih =>
    obtain ⟨k, w⟩ := p
    unfold setKey
    cases hk : (k == k2)
    · simp only [Bool.false_eq_true, if_false]
      unfold alookup
      cases hkn : (k == key)
      · simp only [hkn, Bool.false_eq_true, if_false]
        exact ih
      · simp only [hkn, if_true]
    · have hke : k = k2 := by simpa using hk
      subst hke
      simp only [if_true]
      unfold alookup
      simp only [beq_eq_false_iff_ne.mpr (Ne.symm h), Bool.false_eq_true, if_false]

/-- The namespace read by the renderer is unaffected by the language
setting. -/
theorem namespaceOf_setLang (cfg : RawConfig) (v : String) :
    namespaceOf (setGeneratorLanguage cfg v) = namespaceOf cfg := by
  unfold namespaceOf setGeneratorLanguage
  rw [alookup_setLang_gen]
  cases alookup cfg.sections "Generator" with
  | none => rfl
  | some gen =>
    simp [alookup_setKey_other gen "language" v "namespace" (by decide)]

/-- The attribute-toggle loading is unaffected by the language
setting. -/
theorem load_attribute_config_setLang (cfg : RawConfig) (v : String) :
    load_attribute_config (setGeneratorLanguage cfg v) = load_attribute_config cfg := by
  unfold load_attribute_config setGeneratorLanguage
  rw [alookup_setLang_other cfg.sections v "Attributes" (by decide)]

/-- C10: two runs that differ only in the `Generator.language` value
render identical file content for every table, and the output file name
always carries the fixed `.cs` extension. -/
theorem c10_language_no_effect (cfg : RawConfig) (v table_name : String)
    (columns : List ColumnInfo) :
    renderEntityFile (setGeneratorLanguage cfg v) table_name columns =
      renderEntityFile cfg table_name columns ∧
    (outputFileName table_name).data.drop ((to_pascal_case table_name).data.length) =
      ".cs".data := by
  constructor
  · unfold renderEntityFile
    rw [load_attribute_config_setLang, namespaceOf_setLang]
  · unfold outputFileName
    rw [String.data_append, List.drop_left]
